import Mathlib

/-!
Shallow embedding of `identify_unused_ddb_capacity.py` (a Python 2 script that
reports peak consumed/provisioned read-capacity percentages for DynamoDB
tables and their global secondary indexes) together with theorems checking
the natural-language specification against it.

Modelling conventions:
* Machine floats are modelled by `Rat` (the script only divides and compares;
  all claims are stated up to floating-point tolerance, so exact rational
  arithmetic is the faithful idealisation).
* The AWS clients are modelled by an explicit environment `Env` of oracle
  responses; each embedded function records the external calls it performs
  (`Call`), the lines it prints (`OutLine`), and either a result or the
  first uncaught Python exception (`PyErr`), via the writer/except type `PyM`.
* `client.describe_table` raising (e.g. table not found) is modelled by the
  oracle returning `Option.none`; the script's `if not resp` guards for a
  falsy response dict are unreachable under this oracle (boto3 either raises
  or returns a populated dict) and are absorbed into the same error case.
* A Python `dict` is modelled as an association list in insertion order
  (`pyDictInsert` overwrites in place, new keys are appended), matching
  CPython semantics; the script's iteration over `iteritems()` feeds a
  commutative max-reduction, so the unspecified Python 2 iteration order
  cannot affect the result.
-/

/-- One uncaught Python exception of the script, by raise site. -/
inductive PyErr where
  /-- `parseDDBTableList`: "cannot parse empty input". -/
  | parseEmptyInput
  /-- `parseDDBTableList`: "malformed input, does not contain table names". -/
  | malformedTableList
  /-- The boto3 `describe_table` call raised (table does not exist). -/
  | tableNotFound (tableName : String)
  /-- `getDDBTableProvisionedCapacity`: "Could not retrieve describe table". -/
  | couldNotRetrieveDescribe (tableName region : String)
  /-- `getDDBTableProvisionedCapacity`: "Unsupported capacityType". -/
  | unsupportedCapacityType
  /-- `getDDBTableProvisionedCapacity`: "Cannot find capacity for table and index". -/
  | cannotFindCapacity (tableName indexName region : String)
  /-- `float(None)` raises `TypeError`. -/
  | floatOfNoneTypeError
  /-- `float / 0.0` raises `ZeroDivisionError`. -/
  | zeroDivisionError
deriving DecidableEq

/-- One entry of `Table.GlobalSecondaryIndexes` in a `describe_table` response. -/
structure GSIDesc where
  indexName : String
  readCapacityUnits : Int
  writeCapacityUnits : Int
deriving DecidableEq

/-- The `Table` part of a `describe_table` response.  `provisionedThroughput`
is `(ReadCapacityUnits, WriteCapacityUnits)`; `Option.none` models the
`ProvisionedThroughput` key being absent (on-demand billing), and
`globalSecondaryIndexes = Option.none` models the `GlobalSecondaryIndexes`
key being absent. -/
structure TableDesc where
  provisionedThroughput : Option (Int × Int)
  globalSecondaryIndexes : Option (List GSIDesc)
deriving DecidableEq

/-- One CloudWatch datapoint: `timestamp` is `str(dp['Timestamp'])` and
`sum` is `dp['Sum']`. -/
structure Datapoint where
  timestamp : String
  sum : Rat
deriving DecidableEq

/-- The parameters of one `get_metric_statistics` request. -/
structure MetricsCall where
  nameSpace : String
  metricName : String
  tableName : String
  startTime : Int
  endTime : Int
  period : Int
  statistic : String
  unit : String
deriving DecidableEq

/-- One external AWS API call performed by the script. -/
inductive Call where
  | listTables
  | describeTable (tableName : String)
  | getMetricStatistics (c : MetricsCall)
deriving DecidableEq

/-- The table an external call is about, if any. -/
def Call.tableOf : Call → Option String
  | Call.listTables => Option.none
  | Call.describeTable t => some t
  | Call.getMetricStatistics c => some c.tableName

/-- A Python value as it appears in a printed report line: the script formats
the int literal `0`, floats, and possibly `None`. -/
inductive PyVal where
  | i (n : Int)
  | f (q : Rat)
deriving DecidableEq

/-- One line printed by the script, in structured form (see `OutLine.render`
for the concrete text). -/
inductive OutLine where
  | tableNamesLine (region : String) (names : List String)
  | provisionedRead (tableName : String) (indexName : Option String) (v : Option Int)
  | provisionedWrite (tableName : String) (indexName : Option String) (v : Option Int)
  | maxConsumed (tableName : String) (v : PyVal)
  | noIndexes (tableName : String)
deriving DecidableEq

/-- Oracle responses of the external AWS collaborators, plus the two
`datetime.now()` readings the script takes (line 112 gives `now0`, used as
`endTime`; line 113 gives `now1`, used as `startTime + 5 days`).  Times are
in seconds. -/
structure Env where
  listTablesResp : Option (List String)
  describeTable : String → Option TableDesc
  metrics : MetricsCall → List Datapoint
  now0 : Int
  now1 : Int

/-- Writer/except shape of an embedded stateful function: the external calls
made, the lines printed, and the result or first uncaught exception. -/
abbrev PyM (α : Type) : Type := List Call × List OutLine × Except PyErr α

/-- External calls of a run. -/
def traceOf {α : Type} (x : PyM α) : List Call := x.1

/-- Printed lines of a run. -/
def printsOf {α : Type} (x : PyM α) : List OutLine := x.2.1

/-- Result (or first uncaught exception) of a run. -/
def resultOf {α : Type} (x : PyM α) : Except PyErr α := x.2.2

/-- Sequencing: an exception aborts, otherwise calls and prints accumulate. -/
def PyM.bind {α β : Type} (x : PyM α) (f : α → PyM β) : PyM β :=
  match x with
  | (cs, ps, Except.error e) => (cs, ps, Except.error e)
  | (cs, ps, Except.ok a) =>
    match f a with
    | (cs2, ps2, r) => (cs ++ cs2, ps ++ ps2, r)

/-- A pure value: no calls, no prints. -/
def PyM.pure {α : Type} (a : α) : PyM α := ([], [], Except.ok a)

/-- A `print(...)` statement. -/
def pyPrint (l : OutLine) : PyM Unit := ([], [l], Except.ok ())

/-- Lift a pure fallible computation. -/
def pyOfExcept {α : Type} (r : Except PyErr α) : PyM α := ([], [], r)

/-- Equality of run results is decidable (used to evaluate concrete runs). -/
instance instDecEqExcept {ε α : Type} [DecidableEq ε] [DecidableEq α] :
    DecidableEq (Except ε α) := fun x y =>
  match x, y with
  | Except.ok a, Except.ok b => decidable_of_iff (a = b) (by simp)
  | Except.error e, Except.error e' => decidable_of_iff (e = e') (by simp)
  | Except.ok _, Except.error _ => isFalse (by simp)
  | Except.error _, Except.ok _ => isFalse (by simp)

/-!  ## `parseDDBTableList` (lines 13-28)  -/

/-- Building a Python `set` from a list, modelled as a duplicate-free list in
first-insertion order (the loop `for tn in ...: tableNames.add(tn)`). -/
def pySetOfList (l : List String) : List String :=
  l.foldl (fun acc tn => if tn ∈ acc then acc else acc ++ [tn]) []

/-- Lines 13-28.  The input models the `list_tables` response: `Option.none`
is a falsy (empty) response dict, `some tns` a response whose `TableNames`
value is `tns`. -/
def parseDDBTableList (inputJson : Option (List String)) : Except PyErr (List String) :=
  match inputJson with
  | Option.none => Except.error PyErr.parseEmptyInput
  | some tns =>
    if tns = [] then Except.error PyErr.malformedTableList
    else Except.ok (pySetOfList tns)

/-!  ## `getDDBTableProvisionedCapacity` (lines 74-102)  -/

/-- Lines 95-102: the `for ind in resp['Table']['GlobalSecondaryIndexes']`
loop.  On the first entry whose `IndexName` matches, the capacity kind is
dispatched; if no entry matches, the Python function falls off the end of the
loop and implicitly returns `None` (modelled as `Except.ok Option.none`). -/
def findIndexCapacity (gsis : List GSIDesc) (indexName capacityType : String) :
    Except PyErr (Option Int) :=
  match gsis with
  | [] => Except.ok Option.none
  | g :: rest =>
    if g.indexName = indexName then
      if capacityType = ("read") then Except.ok (some g.readCapacityUnits)
      else if capacityType = ("write") then Except.ok (some g.writeCapacityUnits)
      else Except.error PyErr.unsupportedCapacityType
    else findIndexCapacity rest indexName capacityType

/-- Lines 81-102: everything `getDDBTableProvisionedCapacity` does with the
`describe_table` response `resp` (`Option.none` meaning the client raised). -/
def getDDBTableProvisionedCapacityResult (resp : Option TableDesc)
    (tableName region capacityType : String) (indexName : Option String) :
    Except PyErr (Option Int) :=
  match resp with
  | Option.none => Except.error (PyErr.tableNotFound tableName)
  | some table =>
    match table.provisionedThroughput with
    | Option.none => Except.error (PyErr.couldNotRetrieveDescribe tableName region)
    | some pt =>
      match indexName with
      | Option.none =>
        if capacityType = ("read") then Except.ok (some pt.1)
        else if capacityType = ("write") then Except.ok (some pt.2)
        else Except.error PyErr.unsupportedCapacityType
      | some idx =>
        match table.globalSecondaryIndexes with
        | Option.none => Except.error (PyErr.cannotFindCapacity tableName idx region)
        | some gsis => findIndexCapacity gsis idx capacityType

/-- Lines 74-102: one `describe_table` call, then the pure dispatch. -/
def getDDBTableProvisionedCapacity (env : Env)
    (tableName region capacityType : String) (indexName : Option String) :
    PyM (Option Int) :=
  ([Call.describeTable tableName], [],
    getDDBTableProvisionedCapacityResult (env.describeTable tableName)
      tableName region capacityType indexName)

/-!  ## `getDDBTableGlobalSecondaryIndexNames` (lines 54-71)  -/

/-- Lines 61-71 applied to the `describe_table` response. -/
def gsiNamesResult (resp : Option TableDesc) (tableName : String) :
    Except PyErr (List String) :=
  match resp with
  | Option.none => Except.error (PyErr.tableNotFound tableName)
  | some table =>
    match table.globalSecondaryIndexes with
    | Option.none => Except.ok []
    | some gsis => Except.ok (gsis.map GSIDesc.indexName)

/-- Lines 54-71: one `describe_table` call, then collect the index names. -/
def getDDBTableGlobalSecondaryIndexNames (env : Env) (tableName region : String) :
    PyM (List String) :=
  ([Call.describeTable tableName], [], gsiNamesResult (env.describeTable tableName) tableName)

/-!  ## `getDDBMetricsStatistics` (lines 30-52)  -/

/-- Lines 47-52: one `get_metric_statistics` call against the `AWS/DynamoDB`
namespace with a single `TableName` dimension; returns its `Datapoints`. -/
def getDDBMetricsStatistics (env : Env) (tableName metricName : String)
    (startTime endTime period : Int) (statistic unit : String) :
    PyM (List Datapoint) :=
  ([Call.getMetricStatistics
      { nameSpace := ("AWS/DynamoDB"), metricName := metricName, tableName := tableName,
        startTime := startTime, endTime := endTime, period := period,
        statistic := statistic, unit := unit }], [],
    Except.ok (env.metrics
      { nameSpace := ("AWS/DynamoDB"), metricName := metricName, tableName := tableName,
        startTime := startTime, endTime := endTime, period := period,
        statistic := statistic, unit := unit }))

/-!  ## `getMetricsDataPoints` (lines 105-109)  -/

/-- CPython dict assignment `d[k] = v`: overwrite in place, else append. -/
def pyDictInsert (d : List (String × Rat)) (k : String) (v : Rat) : List (String × Rat) :=
  match d with
  | [] => [(k, v)]
  | (k', v') :: rest =>
    if k' = k then (k, v) :: rest else (k', v') :: pyDictInsert rest k v

/-- Lines 105-109: build the dict `{str(dp['Timestamp']): dp['Sum']}`. -/
def getMetricsDataPoints (inputJson : List Datapoint) : List (String × Rat) :=
  inputJson.foldl (fun d dp => pyDictInsert d dp.timestamp dp.sum) []

/-!  ## `determineUnusedDDBCapacity` (lines 111-141)  -/

/-- Line 137: `float(uc)/float(readCapacityUnits)*100`.  `float(None)` raises
`TypeError`; division by zero raises `ZeroDivisionError`. -/
def divStep (uc : Rat) (readCapacityUnits : Option Int) : Except PyErr Rat :=
  match readCapacityUnits with
  | Option.none => Except.error PyErr.floatOfNoneTypeError
  | some r =>
    if (r : Rat) = 0 then Except.error PyErr.zeroDivisionError
    else Except.ok (uc / (r : Rat) * 100)

/-- Lines 135-139: the reduction loop over the dict values, starting from
`maxUsed = 0.0`. -/
def maxUsedLoop : List Rat → Option Int → Rat → Except PyErr Rat
  | [], _, maxUsed => Except.ok maxUsed
  | uc :: rest, rcu, maxUsed =>
    match divStep uc rcu with
    | Except.error e => Except.error e
    | Except.ok consumedCapacity =>
      maxUsedLoop rest rcu (if consumedCapacity > maxUsed then consumedCapacity else maxUsed)

/-- Lines 133-139: the Utilization Calculator core — collapse the datapoints
into the timestamp-keyed dict and reduce its values to the peak percentage. -/
def computeUtilization (datapoints : List Datapoint) (readCapacityUnits : Option Int) :
    Except PyErr Rat :=
  maxUsedLoop ((getMetricsDataPoints datapoints).map Prod.snd) readCapacityUnits 0

/-- Lines 130-141: print the literal `0%` line when `Datapoints` is empty
(the provisioned value is never touched), otherwise run the reduction and
print the computed float. -/
def reportMaxConsumed (tableName : String) (readCapacityUnits : Option Int)
    (datapoints : List Datapoint) : PyM Unit :=
  if datapoints = [] then pyPrint (OutLine.maxConsumed tableName (PyVal.i 0))
  else
    match computeUtilization datapoints readCapacityUnits with
    | Except.error e => ([], [], Except.error e)
    | Except.ok maxUsed => pyPrint (OutLine.maxConsumed tableName (PyVal.f maxUsed))

/-- The `get_metric_statistics` request built at line 128: consumed read
capacity units over `[now - 5 days, now)` in 300-second periods, `Sum`
statistic, `Count` unit (`timedelta(days=5)` is 432000 seconds). -/
def consumedCall (env : Env) (tableName : String) : MetricsCall :=
  { nameSpace := ("AWS/DynamoDB"), metricName := ("ConsumedReadCapacityUnits"),
    tableName := tableName, startTime := env.now1 - 432000, endTime := env.now0,
    period := 300, statistic := ("Sum"), unit := ("Count") }

/-- Lines 111-141: fetch provisioned read and write capacity (for the table,
or for one of its indexes), print both, fetch the consumed-read metric
series, and report the peak percentage. -/
def determineUnusedDDBCapacity (env : Env) (region tableName : String)
    (indexName : Option String) : PyM Unit :=
  PyM.bind (getDDBTableProvisionedCapacity env tableName region ("read") indexName)
    (fun readCapacityUnits =>
  PyM.bind (getDDBTableProvisionedCapacity env tableName region ("write") indexName)
    (fun writeCapacityUnits =>
  PyM.bind (pyPrint (OutLine.provisionedRead tableName indexName readCapacityUnits))
    (fun _ =>
  PyM.bind (pyPrint (OutLine.provisionedWrite tableName indexName writeCapacityUnits))
    (fun _ =>
  PyM.bind (getDDBMetricsStatistics env tableName ("ConsumedReadCapacityUnits")
      (env.now1 - 432000) env.now0 300 ("Sum") ("Count"))
    (fun consumedReadCapacityMetricsData =>
  reportMaxConsumed tableName readCapacityUnits consumedReadCapacityMetricsData)))))

/-!  ## `identifyUnusedDDBCapacity` (lines 143-166)  -/

/-- Line 153: `if tableToCheck and tableToCheck != tableName: continue`.
A Python `None` or empty-string filter is falsy, so nothing is skipped. -/
def skipTable (tableToCheck : Option String) (tableName : String) : Bool :=
  match tableToCheck with
  | Option.none => false
  | some f => decide (f ≠ ("")) && decide (f ≠ tableName)

/-- Lines 159-166: enumerate the table's indexes and report each one. -/
def processIndexes (env : Env) (region tableName : String) : List String → PyM Unit
  | [] => PyM.pure ()
  | ti :: rest =>
    PyM.bind (determineUnusedDDBCapacity env region tableName (some ti))
      (fun _ => processIndexes env region tableName rest)

/-- Lines 156-166: the body of the per-table loop (after the filter). -/
def processTable (env : Env) (region tableName : String) : PyM Unit :=
  PyM.bind (determineUnusedDDBCapacity env region tableName Option.none)
    (fun _ =>
  PyM.bind (getDDBTableGlobalSecondaryIndexNames env tableName region)
    (fun tableIndexes =>
  PyM.bind (if tableIndexes = [] then pyPrint (OutLine.noIndexes tableName) else PyM.pure ())
    (fun _ =>
  processIndexes env region tableName tableIndexes)))

/-- Lines 151-166: the `for tableName in tableNames` loop with the filter. -/
def processTables (env : Env) (region : String) (tableToCheck : Option String) :
    List String → PyM Unit
  | [] => PyM.pure ()
  | tableName :: rest =>
    PyM.bind (if skipTable tableToCheck tableName then PyM.pure ()
              else processTable env region tableName)
      (fun _ => processTables env region tableToCheck rest)

/-- Lines 143-166: the Report Driver — list the inventory, parse it, print
the table names, and process every (unfiltered) table and its indexes. -/
def identifyUnusedDDBCapacity (env : Env) (region : String)
    (tableToCheck : Option String) : PyM Unit :=
  PyM.bind (([Call.listTables], [], Except.ok ()) : PyM Unit)
    (fun _ =>
  PyM.bind (pyOfExcept (parseDDBTableList env.listTablesResp))
    (fun tableNames =>
  PyM.bind (pyPrint (OutLine.tableNamesLine region tableNames))
    (fun _ =>
  processTables env region tableToCheck tableNames)))

/-!  ## Rendered output text

The script prints via `str.format`.  `pyFloatStr` models Python's rendering
of a float: exact for integer-valued floats (`90.0` prints as `"90.0"`),
which covers every rendered value a claim depends on; other values are
rendered as exact fractions, abstracting Python's shortest-roundtrip decimal
form.  -/

/-- Python `str()` of a float (see module comment above). -/
def pyFloatStr (q : Rat) : String :=
  if q.den = 1 then toString q.num ++ (".0") else toString q

/-- Python formatting of an `int`-or-`None` value. -/
def pyOptIntFmt : Option Int → String
  | Option.none => ("None")
  | some n => toString n

/-- Python formatting of the value slot of a report line. -/
def PyVal.fmt : PyVal → String
  | PyVal.i n => toString n
  | PyVal.f q => pyFloatStr q

/-- Python 2 `repr` of a set of strings, as printed at line 149. -/
def pySetStr (l : List String) : String :=
  ("set([") ++ String.intercalate (", ") (l.map (fun s => ("'") ++ s ++ ("'"))) ++ ("])")

/-- The concrete text of each printed line (lines 120-121, 125-126, 131,
141, 149, 163 of the script). -/
def OutLine.render : OutLine → String
  | OutLine.tableNamesLine region names =>
    ("Table Names for Region ") ++ region ++ (" are ") ++ pySetStr names
  | OutLine.provisionedRead t Option.none v =>
    ("Provisioned Read Capacity Unit for table ") ++ t ++ (" is ") ++ pyOptIntFmt v
  | OutLine.provisionedRead t (some i) v =>
    ("Provisioned Read Capacity Unit for table ") ++ t ++ (" and index ") ++ i
      ++ (" is ") ++ pyOptIntFmt v
  | OutLine.provisionedWrite t Option.none v =>
    ("Provisioned Write Capacity Unit for table ") ++ t ++ (" is ") ++ pyOptIntFmt v
  | OutLine.provisionedWrite t (some i) v =>
    ("Provisioned Write Capacity Unit for table ") ++ t ++ (" and index ") ++ i
      ++ (" is ") ++ pyOptIntFmt v
  | OutLine.maxConsumed t v =>
    ("Table ") ++ t ++ (" has max consumed capacity of ") ++ v.fmt ++ ("% ")
  | OutLine.noIndexes t =>
    ("No LSI or GSI found for table ") ++ t

/-- Recognizer of the peak-utilization report line. -/
def OutLine.isMaxConsumed : OutLine → Bool
  | OutLine.maxConsumed _ _ => true
  | _ => false

/-!  ## Spec-side definition (for refinement comparison only)

Following the spec's words: "peakPercent = max over all samples of
(sample.sumValue / provisionedReadUnits x 100)", i.e. the maximum of
`sumValue` over ALL samples of the series, divided by the provisioned value
and scaled.  This is deliberately written from the spec, not the source. -/

/-- Max of `sumValue` over all samples of a non-empty series (0 if empty). -/
def specMaxSumValue : List Datapoint → Rat
  | [] => 0
  | d :: ds => (ds.map Datapoint.sum).foldl max d.sum

/-!  ## Helper lemmas about the dict and the reduction loop  -/

/-- Inserting a fresh key appends it. -/
theorem pyDictInsert_notMem (d : List (String × Rat)) (k : String) (v : Rat)
    (h : k ∉ d.map Prod.fst) : pyDictInsert d k v = d ++ [(k, v)] := by
  induction d with
  | nil => rfl
  | cons kv rest ih =>
    cases kv with
    | mk k' v' =>
      simp only [List.map_cons, List.mem_cons, not_or] at h
      have hk : ¬k' = k := fun he => h.1 he.symm
      simp only [pyDictInsert, if_neg hk]
      rw [ih h.2]
      simp

/-- The dict never loses its last entry: insertion output is non-empty. -/
theorem pyDictInsert_ne_nil (d : List (String × Rat)) (k : String) (v : Rat) :
    pyDictInsert d k v ≠ [] := by
  cases d with
  | nil => simp [pyDictInsert]
  | cons kv rest =>
    cases kv with
    | mk k' v' =>
      simp only [pyDictInsert]
      split <;> simp

/-- Folding inserts preserves non-emptiness of the accumulated dict. -/
theorem foldl_pyDictInsert_ne_nil (dps : List Datapoint) (acc : List (String × Rat))
    (hacc : acc ≠ []) :
    dps.foldl (fun d dp => pyDictInsert d dp.timestamp dp.sum) acc ≠ [] := by
  induction dps generalizing acc with
  | nil => exact hacc
  | cons dp rest ih =>
    exact ih _ (pyDictInsert_ne_nil acc dp.timestamp dp.sum)

/-- A non-empty series yields a non-empty dict. -/
theorem getMetricsDataPoints_ne_nil (dps : List Datapoint) (h : dps ≠ []) :
    getMetricsDataPoints dps ≠ [] := by
  cases dps with
  | nil => exact absurd rfl h
  | cons d rest =>
    unfold getMetricsDataPoints
    simp only [List.foldl_cons]
    exact foldl_pyDictInsert_ne_nil rest _ (pyDictInsert_ne_nil [] d.timestamp d.sum)

/-- Every value of the dict is the `sum` of one of the datapoints. -/
theorem pyDictInsert_values (d : List (String × Rat)) (k : String) (v : Rat) :
    ∀ x ∈ (pyDictInsert d k v).map Prod.snd, x ∈ d.map Prod.snd ∨ x = v := by
  induction d with
  | nil => simp [pyDictInsert]
  | cons kv rest ih =>
    cases kv with
    | mk k' v' =>
      simp only [pyDictInsert]
      split
      · intro x hx
        simp only [List.map_cons, List.mem_cons] at hx ⊢
        rcases hx with h | h
        · exact Or.inr h
        · exact Or.inl (Or.inr h)
      · intro x hx
        simp only [List.map_cons, List.mem_cons] at hx ⊢
        rcases hx with h | h
        · exact Or.inl (Or.inl h)
        · rcases ih x h with h2 | h2
          · exact Or.inl (Or.inr h2)
          · exact Or.inr h2

/-- Folding inserts only ever adds values taken from the datapoints. -/
theorem foldl_pyDictInsert_values (dps : List Datapoint) :
    ∀ (acc : List (String × Rat)),
      ∀ x ∈ (dps.foldl (fun d dp => pyDictInsert d dp.timestamp dp.sum) acc).map Prod.snd,
        x ∈ acc.map Prod.snd ∨ ∃ dp ∈ dps, x = dp.sum := by
  induction dps with
  | nil => intro acc x hx; exact Or.inl hx
  | cons d ds ih =>
    intro acc x hx
    simp only [List.foldl_cons] at hx
    rcases ih (pyDictInsert acc d.timestamp d.sum) x hx with h | ⟨dp, hdp, he⟩
    · rcases pyDictInsert_values acc d.timestamp d.sum x h with h2 | h2
      · exact Or.inl h2
      · exact Or.inr ⟨d, by simp, h2⟩
    · exact Or.inr ⟨dp, by simp [hdp], he⟩

/-- Every value of the built dict comes from some datapoint of the series. -/
theorem getMetricsDataPoints_values (dps : List Datapoint) :
    ∀ x ∈ (getMetricsDataPoints dps).map Prod.snd, ∃ dp ∈ dps, x = dp.sum := by
  intro x hx
  rcases foldl_pyDictInsert_values dps [] x hx with h | h
  · simp at h
  · exact h

/-- The loop's `if consumedCapacity > maxUsed` update is a max. -/
theorem ite_gt_max (a b : Rat) : (if b > a then b else a) = max a b := by
  rcases le_or_lt b a with h | h
  · rw [if_neg (not_lt.mpr h), max_eq_left h]
  · rw [if_pos h, max_eq_right h.le]

/-- With a non-zero provisioned value the loop never raises and computes the
fold of `max` over the scaled values. -/
theorem maxUsedLoop_some (p : Int) (hp : p ≠ 0) (vals : List Rat) (acc : Rat) :
    maxUsedLoop vals (some p) acc =
      Except.ok (vals.foldl (fun a v => max a (v / (p : Rat) * 100)) acc) := by
  induction vals generalizing acc with
  | nil => rfl
  | cons v rest ih =>
    have hpr : (p : Rat) ≠ 0 := Int.cast_ne_zero.mpr hp
    simp only [maxUsedLoop, divStep, if_neg hpr, List.foldl_cons]
    rw [ite_gt_max, ih]

/-- Scaling by a non-negative constant distributes over a max-fold. -/
theorem foldl_max_mul (c : Rat) (hc : 0 ≤ c) (vals : List Rat) (a : Rat) :
    vals.foldl (fun x v => max x (v * c)) (a * c) = (vals.foldl max a) * c := by
  induction vals generalizing a with
  | nil => rfl
  | cons v rest ih =>
    simp only [List.foldl_cons]
    rw [← max_mul_of_nonneg a v hc, ih]

/-- When the timestamps are pairwise distinct, the dict keeps every sample
in order. -/
theorem foldl_pyDictInsert_nodup (dps : List Datapoint) :
    ∀ (acc : List (String × Rat)),
      (∀ d ∈ dps, d.timestamp ∉ acc.map Prod.fst) →
      (dps.map Datapoint.timestamp).Nodup →
      dps.foldl (fun m dp => pyDictInsert m dp.timestamp dp.sum) acc =
        acc ++ dps.map (fun d => (d.timestamp, d.sum)) := by
  induction dps with
  | nil => intro acc _ _; simp
  | cons d ds ih =>
    intro acc hdisj hnd
    simp only [List.map_cons, List.nodup_cons] at hnd
    simp only [List.foldl_cons]
    rw [pyDictInsert_notMem acc d.timestamp d.sum (hdisj d (by simp))]
    rw [ih (acc ++ [(d.timestamp, d.sum)]) ?_ hnd.2]
    · simp
    · intro e he
      simp only [List.map_append, List.mem_append]
      rintro (hin | hin)
      · exact hdisj e (by simp [he]) hin
      · simp only [List.map_cons, List.map_nil, List.mem_singleton] at hin
        exact hnd.1 (hin ▸ List.mem_map_of_mem Datapoint.timestamp he)

/-- Distinct timestamps: the dict is exactly the sample list. -/
theorem getMetricsDataPoints_nodup (dps : List Datapoint)
    (h : (dps.map Datapoint.timestamp).Nodup) :
    getMetricsDataPoints dps = dps.map (fun d => (d.timestamp, d.sum)) := by
  have := foldl_pyDictInsert_nodup dps [] (by simp) h
  simpa [getMetricsDataPoints] using this

/-!  ## Claim C1  -/

/-- Two samples sharing a timestamp (the dict collapses them, last wins). -/
def dpsC1cex : List Datapoint :=
  [{ timestamp := ("2017-11-10 12:00:00"), sum := 90 },
   { timestamp := ("2017-11-10 12:00:00"), sum := 10 }]

/-- Claim C1, counterexample: on a non-empty series with two samples at the
same timestamp and provisioned read units 100, the reduction loop reports
10 (only the last sample per timestamp survives the dict), while
"max of sample.sumValue over all samples / p * 100" is 90. -/
theorem C1_counterexample :
    computeUtilization dpsC1cex (some 100) = Except.ok 10
  ∧ specMaxSumValue dpsC1cex / (100 : Rat) * 100 = 90
  ∧ (10 : Rat) ≠ 90 := by
  have hdict : getMetricsDataPoints dpsC1cex
      = [(("2017-11-10 12:00:00"), (10 : Rat))] := by
    simp [dpsC1cex, getMetricsDataPoints, pyDictInsert]
  refine ⟨?_, ?_, by decide⟩
  · unfold computeUtilization
    rw [hdict, maxUsedLoop_some 100 (by norm_num)]
    norm_num
  · simp only [specMaxSumValue, dpsC1cex, List.map_cons, List.map_nil, List.foldl]
    norm_num

/-- Claim C1 (amended): for every non-empty MetricSeries whose samples have
pairwise-distinct timestamps (and non-negative sums, per the data model) and
every provisioned read-unit value p > 0, the reduction loop of
`determineUnusedDDBCapacity` reports exactly
(max of sample.sumValue over all samples) / p * 100. -/
theorem C1_theorem (dps : List Datapoint) (p : Int)
    (hne : dps ≠ []) (hdist : (dps.map Datapoint.timestamp).Nodup)
    (hnn : ∀ d ∈ dps, 0 ≤ d.sum) (hp : 0 < p) :
    computeUtilization dps (some p) = Except.ok (specMaxSumValue dps / (p : Rat) * 100) := by
  have hc : (0 : Rat) ≤ 100 / (p : Rat) :=
    div_nonneg (by norm_num) (le_of_lt (by exact_mod_cast hp))
  unfold computeUtilization
  rw [getMetricsDataPoints_nodup dps hdist, maxUsedLoop_some p hp.ne']
  congr 1
  have hvals : (dps.map (fun d => (d.timestamp, d.sum))).map Prod.snd
      = dps.map Datapoint.sum := by
    simp [List.map_map]
  rw [hvals]
  have hfun : (fun (a v : Rat) => max a (v / (p : Rat) * 100))
      = fun (a v : Rat) => max a (v * (100 / (p : Rat))) := by
    funext a v
    congr 1
    ring
  rw [hfun]
  cases dps with
  | nil => exact absurd rfl hne
  | cons d ds =>
    simp only [List.map_cons, List.foldl_cons, specMaxSumValue]
    rw [max_eq_right (mul_nonneg (hnn d (by simp)) hc)]
    rw [foldl_max_mul (100 / (p : Rat)) hc (ds.map Datapoint.sum) d.sum]
    ring

/-- Scenario-1 series of the spec: sums 20, 55, 90, 10 at distinct times. -/
def dpsC1w : List Datapoint :=
  [{ timestamp := ("t1"), sum := 20 }, { timestamp := ("t2"), sum := 55 },
   { timestamp := ("t3"), sum := 90 }, { timestamp := ("t4"), sum := 10 }]

/-- Claim C1, witness: with provisioned read units 100 the amended statement
holds at the spec's end-to-end scenario 1, yielding a 90 percent peak. -/
theorem C1_witness :
    computeUtilization dpsC1w (some 100)
      = Except.ok (specMaxSumValue dpsC1w / (100 : Rat) * 100)
  ∧ specMaxSumValue dpsC1w / (100 : Rat) * 100 = 90 := by
  refine ⟨C1_theorem dpsC1w 100 (by decide) (by decide) ?_ (by decide), ?_⟩
  · intro d hd
    simp only [dpsC1w, List.mem_cons, List.not_mem_nil, or_false] at hd
    rcases hd with h | h | h | h <;> rw [h] <;> decide
  · simp only [specMaxSumValue, dpsC1w, List.map_cons, List.map_nil, List.foldl]
    norm_num

/-!  ## Claim C2  -/

/-- A max-fold from 0 over non-positive contributions stays 0. -/
theorem foldl_max_nonpos (f : Rat → Rat) (vals : List Rat) (h : ∀ v ∈ vals, f v ≤ 0) :
    vals.foldl (fun a v => max a (f v)) 0 = 0 := by
  induction vals with
  | nil => rfl
  | cons v rest ih =>
    simp only [List.foldl_cons]
    rw [max_eq_left (h v (by simp))]
    exact ih (fun w hw => h w (by simp [hw]))

/-- The dict values of a non-empty series form a non-empty list. -/
theorem dictValues_cons (dps : List Datapoint) (hne : dps ≠ []) :
    ∃ x xs, (getMetricsDataPoints dps).map Prod.snd = x :: xs := by
  cases h : getMetricsDataPoints dps with
  | nil => exact absurd h (getMetricsDataPoints_ne_nil dps hne)
  | cons kv rest => exact ⟨kv.2, rest.map Prod.snd, by simp [h]⟩

/-- A single sample of 50 consumed units. -/
def dpsC2 : List Datapoint := [{ timestamp := ("t"), sum := 50 }]

/-- Claim C2, counterexample: with a NEGATIVE provisioned read-unit value
(-10) on a non-empty series, the Utilization Calculator does not fail at
all — it silently reports a peak of 0 (every quotient is negative, so the
`maxUsed` accumulator never moves off its 0.0 start). -/
theorem C2_counterexample :
    computeUtilization dpsC2 (some (-10)) = Except.ok 0
  ∧ (computeUtilization dpsC2 (some (-10))).isOk = true := by
  have h : computeUtilization dpsC2 (some (-10)) = Except.ok 0 := by
    unfold computeUtilization
    have hdict : (getMetricsDataPoints dpsC2).map Prod.snd = [(50 : Rat)] := by
      simp [dpsC2, getMetricsDataPoints, pyDictInsert]
    rw [hdict, maxUsedLoop_some (-10) (by norm_num)]
    norm_num
  exact ⟨h, by rw [h]; rfl⟩

/-- Claim C2 (amended): on a non-empty series a ZERO provisioned value fails
(with Python's `ZeroDivisionError`, there is no dedicated
InvalidCapacityError) and an ABSENT (`None`) value fails (with `TypeError`
from `float(None)`); but a NEGATIVE value does not fail — the peak is
silently reported as 0 — and on an empty series no validation happens at
all: the 0% line is printed for every provisioned value, including zero and
absent ones. -/
theorem C2_theorem (dps : List Datapoint) (hne : dps ≠ []) (hnn : ∀ d ∈ dps, 0 ≤ d.sum) :
    computeUtilization dps (some 0) = Except.error PyErr.zeroDivisionError
  ∧ computeUtilization dps Option.none = Except.error PyErr.floatOfNoneTypeError
  ∧ (∀ p : Int, p < 0 → computeUtilization dps (some p) = Except.ok 0)
  ∧ (∀ (t : String) (rcu : Option Int),
      reportMaxConsumed t rcu [] = ([], [OutLine.maxConsumed t (PyVal.i 0)], Except.ok ())) := by
  obtain ⟨x, xs, hx⟩ := dictValues_cons dps hne
  refine ⟨?_, ?_, ?_, fun t rcu => rfl⟩
  · unfold computeUtilization
    rw [hx]
    simp [maxUsedLoop, divStep]
  · unfold computeUtilization
    rw [hx]
    simp [maxUsedLoop, divStep]
  · intro p hp
    unfold computeUtilization
    rw [maxUsedLoop_some p (ne_of_lt hp)]
    congr 1
    apply foldl_max_nonpos
    intro v hv
    obtain ⟨dp, hdp, hvs⟩ := getMetricsDataPoints_values dps v hv
    have hv0 : 0 ≤ v := hvs ▸ hnn dp hdp
    have hpr : (p : Rat) < 0 := by exact_mod_cast hp
    have : v / (p : Rat) ≤ 0 := div_nonpos_of_nonneg_of_nonpos hv0 hpr.le
    nlinarith

/-- Claim C2, witness: the amended statement at the one-sample series, with
the negative case instantiated at -10. -/
theorem C2_witness :
    computeUtilization dpsC2 (some 0) = Except.error PyErr.zeroDivisionError
  ∧ computeUtilization dpsC2 Option.none = Except.error PyErr.floatOfNoneTypeError
  ∧ computeUtilization dpsC2 (some (-10)) = Except.ok 0
  ∧ reportMaxConsumed ("Empty") (some 50) []
      = ([], [OutLine.maxConsumed ("Empty") (PyVal.i 0)], Except.ok ()) := by
  have h := C2_theorem dpsC2 (by decide) (fun d hd => by
    simp only [dpsC2, List.mem_cons, List.not_mem_nil, or_false] at hd
    rw [hd]
    decide)
  exact ⟨h.1, h.2.1, h.2.2.1 (-10) (by decide), h.2.2.2 ("Empty") (some 50)⟩

/-!  ## Claims C3 and C4  -/

/-- A table with provisioned throughput (100, 10) and exactly one global
secondary index, named idx2, with capacity (5, 5). -/
def tdOneGsi : TableDesc :=
  { provisionedThroughput := some (100, 10),
    globalSecondaryIndexes := some [{ indexName := ("idx2"), readCapacityUnits := 5,
                                      writeCapacityUnits := 5 }] }

/-- Claim C3 (code bug): with a successfully retrieved table descriptor that
DOES have a secondary-index list, asking for the capacity of an index that
is not in that list does not fail — the Python loop falls off its end and
the function implicitly returns `None`, a non-error absent value (which the
caller will later crash on via `float(None)`).  The second conjunct shows
the matched-index path for contrast; the third records that the non-error
result is not any `Except.error`. -/
theorem C3_theorem :
    getDDBTableProvisionedCapacityResult (some tdOneGsi) ("T") ("us-east-1") ("read")
      (some ("idx1")) = Except.ok Option.none
  ∧ getDDBTableProvisionedCapacityResult (some tdOneGsi) ("T") ("us-east-1") ("read")
      (some ("idx2")) = Except.ok (some 5)
  ∧ (getDDBTableProvisionedCapacityResult (some tdOneGsi) ("T") ("us-east-1") ("read")
      (some ("idx1"))).isOk = true := by
  refine ⟨by decide, by decide, by decide⟩

/-- Claim C4, counterexample: requesting capacity kind "delete" is NOT
independent of table/index existence, and does not always raise the
unsupported-kind error: (i) when the table does not exist, the
`describe_table` call raises first, so the failure is the table-not-found
error; (ii) when an index name is given that is not in the table's
secondary-index list, the kind is never even inspected and the call returns
`None` without any error. -/
theorem C4_counterexample :
    getDDBTableProvisionedCapacityResult Option.none ("T") ("us-east-1") ("delete")
      Option.none = Except.error (PyErr.tableNotFound ("T"))
  ∧ getDDBTableProvisionedCapacityResult (some tdOneGsi) ("T") ("us-east-1") ("delete")
      (some ("idx1")) = Except.ok Option.none
  ∧ Except.error (PyErr.tableNotFound ("T"))
      ≠ (Except.error PyErr.unsupportedCapacityType : Except PyErr (Option Int))
  ∧ (Except.ok Option.none : Except PyErr (Option Int))
      ≠ Except.error PyErr.unsupportedCapacityType := by
  refine ⟨by decide, by decide, by decide, by decide⟩

/-- The unsupported-kind dispatch fires once the named index is found. -/
theorem findIndexCapacity_mem_unsupported (gsis : List GSIDesc) (i kind : String)
    (hk1 : kind ≠ ("read")) (hk2 : kind ≠ ("write"))
    (hmem : i ∈ gsis.map GSIDesc.indexName) :
    findIndexCapacity gsis i kind = Except.error PyErr.unsupportedCapacityType := by
  induction gsis with
  | nil => simp at hmem
  | cons g rest ih =>
    simp only [List.map_cons, List.mem_cons] at hmem
    by_cases hg : g.indexName = i
    · simp only [findIndexCapacity, if_pos hg, if_neg hk1, if_neg hk2]
    · rcases hmem with h | h
      · exact absurd h.symm hg
      · simp only [findIndexCapacity, if_neg hg]
        exact ih h

/-- Claim C4 (amended): a capacity kind outside read/write fails with the
unsupported-kind error only once existence checks have passed — the table
descriptor was retrieved with its provisioned-throughput descriptor present,
and the named index (if any) is found in the table's secondary-index list.
The failure is therefore NOT independent of table/index existence (see the
counterexample). -/
theorem C4_theorem (resp : Option TableDesc) (t region kind : String)
    (idx : Option String) (td : TableDesc) (pt : Int × Int)
    (hk1 : kind ≠ ("read")) (hk2 : kind ≠ ("write"))
    (hresp : resp = some td) (hpt : td.provisionedThroughput = some pt)
    (hidx : ∀ i, idx = some i →
      ∃ gsis, td.globalSecondaryIndexes = some gsis ∧ i ∈ gsis.map GSIDesc.indexName) :
    getDDBTableProvisionedCapacityResult resp t region kind idx
      = Except.error PyErr.unsupportedCapacityType := by
  subst hresp
  simp only [getDDBTableProvisionedCapacityResult, hpt]
  cases idx with
  | none => simp only [if_neg hk1, if_neg hk2]
  | some i =>
    obtain ⟨gsis, hg, hmem⟩ := hidx i rfl
    rw [hg]
    exact findIndexCapacity_mem_unsupported gsis i kind hk1 hk2 hmem

/-- Claim C4, witness: the amended statement at kind "delete" on a table
whose descriptor is present, once without an index and once at the existing
index idx2. -/
theorem C4_witness :
    getDDBTableProvisionedCapacityResult (some tdOneGsi) ("T") ("us-east-1") ("delete")
      Option.none = Except.error PyErr.unsupportedCapacityType
  ∧ getDDBTableProvisionedCapacityResult (some tdOneGsi) ("T") ("us-east-1") ("delete")
      (some ("idx2")) = Except.error PyErr.unsupportedCapacityType := by
  constructor
  · exact C4_theorem (some tdOneGsi) ("T") ("us-east-1") ("delete") Option.none
      tdOneGsi (100, 10) (by decide) (by decide) rfl rfl
      (fun i hi => Option.noConfusion hi)
  · exact C4_theorem (some tdOneGsi) ("T") ("us-east-1") ("delete") (some ("idx2"))
      tdOneGsi (100, 10) (by decide) (by decide) rfl rfl
      (fun i hi => ⟨[{ indexName := ("idx2"), readCapacityUnits := 5,
                       writeCapacityUnits := 5 }], rfl,
        by rw [← Option.some_inj.mp hi]; decide⟩)

/-!  ## Claims C5 and C6  -/

/-- Claim C5 (confirmed): for every provisioned read-unit value p > 0,
an empty MetricSeries is reported as a peak of 0 — the guarded branch at
line 130 prints the literal `0%` line and the run succeeds (no error); the
rendered text is exactly the script's output. -/
theorem C5_theorem (t : String) (p : Int) (hp : 0 < p) :
    reportMaxConsumed t (some p) []
      = ([], [OutLine.maxConsumed t (PyVal.i 0)], Except.ok ())
  ∧ (OutLine.maxConsumed t (PyVal.i 0)).render
      = ("Table ") ++ t ++ (" has max consumed capacity of 0% ") := by
  constructor
  · rfl
  · simp only [OutLine.render, PyVal.fmt]
    have h0 : toString (0 : Int) = ("0") := rfl
    rw [h0]
    simp only [String.append_assoc]
    congr 1

/-- Claim C5, witness: at table Empty with provisioned read capacity 50
(the spec's end-to-end scenario 2). -/
theorem C5_witness :
    reportMaxConsumed ("Empty") (some 50) []
      = ([], [OutLine.maxConsumed ("Empty") (PyVal.i 0)], Except.ok ())
  ∧ (OutLine.maxConsumed ("Empty") (PyVal.i 0)).render
      = ("Table ") ++ ("Empty") ++ (" has max consumed capacity of 0% ") :=
  C5_theorem ("Empty") 50 (by decide)

/-- All-zero samples yield a computed peak of exactly 0. -/
theorem computeUtilization_zeros (dps : List Datapoint) (p : Int) (hp : 0 < p)
    (hz : ∀ d ∈ dps, d.sum = 0) :
    computeUtilization dps (some p) = Except.ok 0 := by
  unfold computeUtilization
  rw [maxUsedLoop_some p hp.ne']
  congr 1
  apply foldl_max_nonpos
  intro v hv
  obtain ⟨dp, hdp, hvs⟩ := getMetricsDataPoints_values dps v hv
  rw [hvs, hz dp hdp]
  simp

/-- Claim C6 (confirmed): a table with zero datapoints is reported through
the dedicated empty-series branch, whose line formats the int literal 0,
while a table whose real samples all read 0 goes through the reduction and
formats the float 0.0; the two rendered report lines are distinct ("0%"
versus "0.0%"), so the no-consumption case is observably distinct from a
numeric 0% peak. -/
theorem C6_theorem (t : String) (p : Int) (hp : 0 < p) (dps : List Datapoint)
    (hne : dps ≠ []) (hz : ∀ d ∈ dps, d.sum = 0) :
    printsOf (reportMaxConsumed t (some p) dps) = [OutLine.maxConsumed t (PyVal.f 0)]
  ∧ resultOf (reportMaxConsumed t (some p) dps) = Except.ok ()
  ∧ printsOf (reportMaxConsumed t (some p) []) = [OutLine.maxConsumed t (PyVal.i 0)]
  ∧ (OutLine.maxConsumed t (PyVal.f 0)).render ≠ (OutLine.maxConsumed t (PyVal.i 0)).render := by
  have hrun : reportMaxConsumed t (some p) dps
      = ([], [OutLine.maxConsumed t (PyVal.f 0)], Except.ok ()) := by
    unfold reportMaxConsumed
    rw [if_neg hne, computeUtilization_zeros dps p hp hz]
    rfl
  refine ⟨by rw [hrun]; rfl, by rw [hrun]; rfl, rfl, ?_⟩
  intro h
  simp only [OutLine.render, PyVal.fmt, pyFloatStr] at h
  norm_num at h
  have hlen := congrArg String.length h
  simp [String.length_append] at hlen
  exact absurd hlen (by decide)

/-- One sample with zero consumption. -/
def dpsC6 : List Datapoint := [{ timestamp := ("ts"), sum := 0 }]

/-- Claim C6, witness: table Empty with provisioned read capacity 50 —
zero datapoints versus one real sample of 0. -/
theorem C6_witness :
    printsOf (reportMaxConsumed ("Empty") (some 50) dpsC6)
      = [OutLine.maxConsumed ("Empty") (PyVal.f 0)]
  ∧ resultOf (reportMaxConsumed ("Empty") (some 50) dpsC6) = Except.ok ()
  ∧ printsOf (reportMaxConsumed ("Empty") (some 50) [])
      = [OutLine.maxConsumed ("Empty") (PyVal.i 0)]
  ∧ (OutLine.maxConsumed ("Empty") (PyVal.f 0)).render
      ≠ (OutLine.maxConsumed ("Empty") (PyVal.i 0)).render :=
  C6_theorem ("Empty") 50 (by decide) dpsC6 (by decide) (fun d hd => by
    simp only [dpsC6, List.mem_cons, List.not_mem_nil, or_false] at hd
    rw [hd])

/-!  ## Trace shape of the driver (for claims C7 and C8)  -/

/-- Membership in the trace of a sequenced run decomposes. -/
theorem mem_trace_bind {α β : Type} {x : PyM α} {f : α → PyM β} {c : Call}
    (h : c ∈ (PyM.bind x f).1) :
    c ∈ x.1 ∨ ∃ a, x.2.2 = Except.ok a ∧ c ∈ (f a).1 := by
  rcases x with ⟨cs, ps, r⟩
  cases r with
  | error e => exact Or.inl h
  | ok a =>
    simp only [PyM.bind] at h
    rcases hfa : f a with ⟨cs2, ps2, r2⟩
    rw [hfa] at h
    simp only [List.mem_append] at h
    rcases h with h | h
    · exact Or.inl h
    · exact Or.inr ⟨a, rfl, by rw [hfa]; exact h⟩

/-- Every call of `determineUnusedDDBCapacity` is a describe-table call on
its own table or the canonical consumed-read metrics request. -/
theorem determineUnused_trace (env : Env) (region t : String) (idx : Option String) :
    ∀ c ∈ (determineUnusedDDBCapacity env region t idx).1,
      c = Call.describeTable t ∨ c = Call.getMetricStatistics (consumedCall env t) := by
  intro c hc
  unfold determineUnusedDDBCapacity at hc
  rcases mem_trace_bind hc with h | ⟨_, _, h⟩
  · exact Or.inl (by simpa [getDDBTableProvisionedCapacity] using h)
  rcases mem_trace_bind h with h | ⟨_, _, h⟩
  · exact Or.inl (by simpa [getDDBTableProvisionedCapacity] using h)
  rcases mem_trace_bind h with h | ⟨_, _, h⟩
  · simp [pyPrint] at h
  rcases mem_trace_bind h with h | ⟨_, _, h⟩
  · simp [pyPrint] at h
  rcases mem_trace_bind h with h | ⟨_, _, h⟩
  · exact Or.inr (by simpa [getDDBMetricsStatistics, consumedCall] using h)
  · unfold reportMaxConsumed at h
    split at h
    · simp [pyPrint] at h
    · split at h
      · simp at h
      · simp [pyPrint] at h

/-- The GSI-name fetch only describes its own table. -/
theorem gsiNames_trace (env : Env) (t region : String) :
    (getDDBTableGlobalSecondaryIndexNames env t region).1 = [Call.describeTable t] := rfl

/-- Every call of the index loop is about the parent table. -/
theorem processIndexes_trace (env : Env) (region t : String) (idxs : List String) :
    ∀ c ∈ (processIndexes env region t idxs).1,
      c = Call.describeTable t ∨ c = Call.getMetricStatistics (consumedCall env t) := by
  induction idxs with
  | nil => intro c h; simp [processIndexes, PyM.pure] at h
  | cons i rest ih =>
    intro c h
    unfold processIndexes at h
    rcases mem_trace_bind h with h2 | ⟨_, _, h2⟩
    · exact determineUnused_trace env region t (some i) c h2
    · exact ih c h2

/-- Every call of the per-table body is about that table. -/
theorem processTable_trace (env : Env) (region t : String) :
    ∀ c ∈ (processTable env region t).1,
      c = Call.describeTable t ∨ c = Call.getMetricStatistics (consumedCall env t) := by
  intro c hc
  unfold processTable at hc
  rcases mem_trace_bind hc with h | ⟨_, _, h⟩
  · exact determineUnused_trace env region t Option.none c h
  rcases mem_trace_bind h with h | ⟨idxs, _, h⟩
  · exact Or.inl (by simpa [getDDBTableGlobalSecondaryIndexNames] using h)
  rcases mem_trace_bind h with h | ⟨_, _, h⟩
  · by_cases hsp : idxs = ([] : List String) <;> simp [hsp, pyPrint, PyM.pure] at h
  · exact processIndexes_trace env region t idxs c h

/-- Every call of the per-table loop is about a table that passed the
filter. -/
theorem processTables_trace (env : Env) (region : String) (tc : Option String)
    (tns : List String) :
    ∀ c ∈ (processTables env region tc tns).1,
      ∃ t, skipTable tc t = false ∧
        (c = Call.describeTable t ∨ c = Call.getMetricStatistics (consumedCall env t)) := by
  induction tns with
  | nil => intro c h; simp [processTables, PyM.pure] at h
  | cons t rest ih =>
    intro c h
    unfold processTables at h
    rcases mem_trace_bind h with h2 | ⟨_, _, h2⟩
    · by_cases hsk : skipTable tc t = true
      · rw [if_pos hsk] at h2
        simp [PyM.pure] at h2
      · rw [if_neg hsk] at h2
        exact ⟨t, Bool.not_eq_true _ ▸ eq_false_of_ne_true hsk,
          processTable_trace env region t c h2⟩
    · exact ih c h2

/-- Every call of the whole Report Driver is the inventory listing or an
operation on a table that passed the filter. -/
theorem identify_trace_shape (env : Env) (region : String) (tableToCheck : Option String) :
    ∀ c ∈ traceOf (identifyUnusedDDBCapacity env region tableToCheck),
      c = Call.listTables ∨
      ∃ t, skipTable tableToCheck t = false ∧
        (c = Call.describeTable t ∨ c = Call.getMetricStatistics (consumedCall env t)) := by
  intro c hc
  unfold identifyUnusedDDBCapacity at hc
  rcases mem_trace_bind hc with h | ⟨_, _, h⟩
  · exact Or.inl (by simpa using h)
  rcases mem_trace_bind h with h | ⟨tns, _, h⟩
  · simp [pyOfExcept] at h
  rcases mem_trace_bind h with h | ⟨_, _, h⟩
  · simp [pyPrint] at h
  · exact Or.inr (processTables_trace env region tableToCheck tns c h)

/-!  ## Claims C7 and C8  -/

/-- Calls of the first stage survive sequencing. -/
theorem mem_trace_bind_left {α β : Type} {x : PyM α} {f : α → PyM β} {c : Call}
    (h : c ∈ x.1) : c ∈ (PyM.bind x f).1 := by
  rcases x with ⟨cs, ps, r⟩
  cases r with
  | error e => exact h
  | ok a =>
    rcases hfa : f a with ⟨cs2, ps2, r2⟩
    simp only [PyM.bind, hfa, List.mem_append]
    exact Or.inl h

/-- Claim C7 (confirmed): every metrics retrieval performed by the Report
Driver — for tables and for indexes alike — requests the
ConsumedReadCapacityUnits metric over the window from now minus 5 days
(432000 seconds) to now, with a 300-second (5-minute) period, the Sum
statistic and the Count unit.  `hnow` states that the two `datetime.now()`
readings taken at lines 112-113 denote the same instant. -/
theorem C7_theorem (env : Env) (region : String) (tableToCheck : Option String)
    (hnow : env.now1 = env.now0) :
    ∀ c ∈ traceOf (identifyUnusedDDBCapacity env region tableToCheck),
      ∀ mc, c = Call.getMetricStatistics mc →
        mc.metricName = ("ConsumedReadCapacityUnits")
      ∧ mc.startTime = env.now0 - 432000
      ∧ mc.endTime = env.now0
      ∧ mc.period = 300
      ∧ mc.statistic = ("Sum")
      ∧ mc.unit = ("Count") := by
  intro c hc mc hmc
  rcases identify_trace_shape env region tableToCheck c hc with h | ⟨t, _, h | h⟩
  · rw [h] at hmc
    exact absurd hmc (by simp)
  · rw [h] at hmc
    exact absurd hmc (by simp)
  · rw [h] at hmc
    have hmc2 : consumedCall env t = mc := by
      injection hmc.symm with h2
      exact h2.symm
    rw [← hmc2]
    refine ⟨rfl, ?_, rfl, rfl, rfl, rfl⟩
    simp [consumedCall, hnow]

/-- A plain table: provisioned throughput (100, 10), no secondary index. -/
def tdPlain : TableDesc :=
  { provisionedThroughput := some (100, 10), globalSecondaryIndexes := Option.none }

/-- Concrete environment with inventory [A] and no datapoints. -/
def envC7 : Env :=
  { listTablesResp := some [("A")], describeTable := fun _ => some tdPlain,
    metrics := fun _ => [], now0 := 1700000000, now1 := 1700000000 }

/-- Claim C7, witness: the one metrics call the driver makes on `envC7` is
in the trace and carries exactly the fixed metric, window, period,
statistic and unit. -/
theorem C7_witness :
    (consumedCall envC7 ("A")).metricName = ("ConsumedReadCapacityUnits")
  ∧ (consumedCall envC7 ("A")).startTime = envC7.now0 - 432000
  ∧ (consumedCall envC7 ("A")).endTime = envC7.now0
  ∧ (consumedCall envC7 ("A")).period = 300
  ∧ (consumedCall envC7 ("A")).statistic = ("Sum")
  ∧ (consumedCall envC7 ("A")).unit = ("Count") :=
  C7_theorem envC7 ("us-east-1") Option.none rfl
    (Call.getMetricStatistics (consumedCall envC7 ("A"))) (by decide)
    (consumedCall envC7 ("A")) rfl

/-- Claim C8 (confirmed): when a specific (non-empty) TableIdentifier
filter is given, the inventory listing is still performed, and every other
call the Report Driver makes is about the filtered table only — no
capacity, index or metrics operation happens for any other table. -/
theorem C8_theorem (env : Env) (region T : String) (hT : T ≠ ("")) :
    Call.listTables ∈ traceOf (identifyUnusedDDBCapacity env region (some T))
  ∧ ∀ c ∈ traceOf (identifyUnusedDDBCapacity env region (some T)),
      c.tableOf = Option.none ∨ c.tableOf = some T := by
  constructor
  · unfold identifyUnusedDDBCapacity
    exact mem_trace_bind_left (by simp)
  · intro c hc
    rcases identify_trace_shape env region (some T) c hc with h | ⟨t, hsk, h | h⟩
    · exact Or.inl (by rw [h]; rfl)
    · have ht : t = T := by
        simp only [skipTable, decide_eq_true hT, Bool.true_and] at hsk
        exact (not_not.mp (of_decide_eq_false hsk)).symm
      rw [h, ht]
      exact Or.inr rfl
    · have ht : t = T := by
        simp only [skipTable, decide_eq_true hT, Bool.true_and] at hsk
        exact (not_not.mp (of_decide_eq_false hsk)).symm
      rw [h, ht]
      exact Or.inr rfl

/-- Concrete environment with inventory [A, B] and no datapoints. -/
def envC8 : Env :=
  { listTablesResp := some [("A"), ("B")], describeTable := fun _ => some tdPlain,
    metrics := fun _ => [], now0 := 0, now1 := 0 }

/-- Claim C8, witness: filtering on A over inventory [A, B], the listing
call is made, and no describe-table call for B appears in the trace. -/
theorem C8_witness :
    Call.listTables ∈ traceOf (identifyUnusedDDBCapacity envC8 ("us-east-1") (some ("A")))
  ∧ Call.describeTable ("B")
      ∉ traceOf (identifyUnusedDDBCapacity envC8 ("us-east-1") (some ("A"))) := by
  have h := C8_theorem envC8 ("us-east-1") ("A") (by decide)
  refine ⟨h.1, fun hmem => ?_⟩
  rcases h.2 (Call.describeTable ("B")) hmem with hn | hs
  · exact absurd hn (by decide)
  · exact absurd hs (by decide)

/-!  ## Claim C9  -/

/-- The set-building fold never empties a non-empty accumulator. -/
theorem pySetFold_ne_nil (l : List String) (acc : List String) (hacc : acc ≠ []) :
    l.foldl (fun acc tn => if tn ∈ acc then acc else acc ++ [tn]) acc ≠ [] := by
  induction l generalizing acc with
  | nil => exact hacc
  | cons t rest ih =>
    simp only [List.foldl_cons]
    apply ih
    split
    · exact hacc
    · simp

/-- A non-empty table-name list parses to a non-empty set. -/
theorem pySetOfList_ne_nil (tns : List String) (h : tns ≠ []) : pySetOfList tns ≠ [] := by
  cases tns with
  | nil => exact absurd rfl h
  | cons t rest =>
    unfold pySetOfList
    simp only [List.foldl_cons]
    apply pySetFold_ne_nil
    simp

/-- Claim C9 (confirmed): parsing the inventory response fails when the
response is empty (falsy) or its TableNames list is empty, and a successful
parse of a non-empty name list yields a non-empty set of identifiers. -/
theorem C9_theorem (tns : List String) (hne : tns ≠ []) :
    (parseDDBTableList Option.none).isOk = false
  ∧ (parseDDBTableList (some [])).isOk = false
  ∧ (parseDDBTableList (some tns)).isOk = true
  ∧ parseDDBTableList (some tns) ≠ Except.ok [] := by
  refine ⟨rfl, rfl, ?_, ?_⟩
  · simp only [parseDDBTableList, if_neg hne]
    rfl
  · simp only [parseDDBTableList, if_neg hne]
    intro h
    exact pySetOfList_ne_nil tns hne (Except.ok.inj h)

/-- Claim C9, witness: at the one-element inventory [Orders]. -/
theorem C9_witness :
    (parseDDBTableList Option.none).isOk = false
  ∧ (parseDDBTableList (some [])).isOk = false
  ∧ (parseDDBTableList (some [("Orders")])).isOk = true
  ∧ parseDDBTableList (some [("Orders")]) ≠ Except.ok [] :=
  C9_theorem [("Orders")] (by decide)

/-!  ## Claim C10  -/

/-- The write-capacity-independent part of a secondary-index descriptor. -/
def GSIDesc.readPart (g : GSIDesc) : String × Int := (g.indexName, g.readCapacityUnits)

/-- The write-capacity-independent part of a table descriptor: presence and
read units of the provisioned throughput, and names plus read units of the
secondary indexes. -/
def TableDesc.readView (td : TableDesc) : Option Int × Option (List (String × Int)) :=
  (td.provisionedThroughput.map Prod.fst,
   td.globalSecondaryIndexes.map (fun gsis => gsis.map GSIDesc.readPart))

/-- Evaluating the index loop for the read kind. -/
theorem findIndexCapacity_cons_read (g : GSIDesc) (rest : List GSIDesc) (i : String) :
    findIndexCapacity (g :: rest) i ("read")
      = if g.indexName = i then Except.ok (some g.readCapacityUnits)
        else findIndexCapacity rest i ("read") := by
  by_cases hi : g.indexName = i
  · conv_lhs => unfold findIndexCapacity
    rw [if_pos hi, if_pos rfl, if_pos hi]
  · conv_lhs => unfold findIndexCapacity
    rw [if_neg hi, if_neg hi]

/-- Evaluating the index loop for the write kind. -/
theorem findIndexCapacity_cons_write (g : GSIDesc) (rest : List GSIDesc) (i : String) :
    findIndexCapacity (g :: rest) i ("write")
      = if g.indexName = i then Except.ok (some g.writeCapacityUnits)
        else findIndexCapacity rest i ("write") := by
  by_cases hi : g.indexName = i
  · conv_lhs => unfold findIndexCapacity
    rw [if_pos hi, if_neg (by decide), if_pos rfl, if_pos hi]
  · conv_lhs => unfold findIndexCapacity
    rw [if_neg hi, if_neg hi]

/-- Index lists agreeing on names and read units give the same read-kind
lookup result. -/
theorem findIndexCapacity_read_congr (g₁ g₂ : List GSIDesc) (i : String)
    (h : g₁.map GSIDesc.readPart = g₂.map GSIDesc.readPart) :
    findIndexCapacity g₁ i ("read") = findIndexCapacity g₂ i ("read") := by
  induction g₁ generalizing g₂ with
  | nil =>
    cases g₂ with
    | nil => rfl
    | cons _ _ => simp at h
  | cons g rest ih =>
    cases g₂ with
    | nil => simp at h
    | cons g' rest' =>
      simp only [List.map_cons, List.cons.injEq] at h
      have hname : g.indexName = g'.indexName := congrArg Prod.fst h.1
      have hread : g.readCapacityUnits = g'.readCapacityUnits := congrArg Prod.snd h.1
      rw [findIndexCapacity_cons_read, findIndexCapacity_cons_read, hname, hread,
        ih rest' h.2]

/-- Index lists agreeing on names and read units give write-kind lookups
that are equal or both successful. -/
theorem findIndexCapacity_write_congr (g₁ g₂ : List GSIDesc) (i : String)
    (h : g₁.map GSIDesc.readPart = g₂.map GSIDesc.readPart) :
    findIndexCapacity g₁ i ("write") = findIndexCapacity g₂ i ("write")
    ∨ ((findIndexCapacity g₁ i ("write")).isOk = true
       ∧ (findIndexCapacity g₂ i ("write")).isOk = true) := by
  induction g₁ generalizing g₂ with
  | nil =>
    cases g₂ with
    | nil => exact Or.inl rfl
    | cons _ _ => simp at h
  | cons g rest ih =>
    cases g₂ with
    | nil => simp at h
    | cons g' rest' =>
      simp only [List.map_cons, List.cons.injEq] at h
      have hname : g.indexName = g'.indexName := congrArg Prod.fst h.1
      rw [findIndexCapacity_cons_write, findIndexCapacity_cons_write, hname]
      by_cases hi : g'.indexName = i
      · rw [if_pos hi, if_pos hi]
        exact Or.inr ⟨rfl, rfl⟩
      · rw [if_neg hi, if_neg hi]
        exact ih rest' h.2

/-- Evaluating the table-level read-capacity path. -/
theorem capResult_pt_read (td : TableDesc) (t reg : String) (pt : Int × Int)
    (hpt : td.provisionedThroughput = some pt) :
    getDDBTableProvisionedCapacityResult (some td) t reg ("read") Option.none
      = Except.ok (some pt.1) := by
  simp only [getDDBTableProvisionedCapacityResult, hpt]
  simp

/-- Evaluating the table-level write-capacity path. -/
theorem capResult_pt_write (td : TableDesc) (t reg : String) (pt : Int × Int)
    (hpt : td.provisionedThroughput = some pt) :
    getDDBTableProvisionedCapacityResult (some td) t reg ("write") Option.none
      = Except.ok (some pt.2) := by
  simp only [getDDBTableProvisionedCapacityResult, hpt]
  simp

/-- Read-kind capacity results depend only on the read view of the table
descriptor. -/
theorem capResult_read_congr (r₁ r₂ : Option TableDesc) (t reg : String)
    (idx : Option String)
    (hd : r₁.map TableDesc.readView = r₂.map TableDesc.readView) :
    getDDBTableProvisionedCapacityResult r₁ t reg ("read") idx
      = getDDBTableProvisionedCapacityResult r₂ t reg ("read") idx := by
  cases r₁ with
  | none =>
    cases r₂ with
    | none => rfl
    | some td₂ => simp at hd
  | some td₁ =>
    cases r₂ with
    | none => simp at hd
    | some td₂ =>
      simp only [Option.map_some', Option.some_inj] at hd
      have hpt := congrArg Prod.fst hd
      have hg := congrArg Prod.snd hd
      simp only [TableDesc.readView] at hpt hg
      cases h1 : td₁.provisionedThroughput with
      | none =>
        cases h2 : td₂.provisionedThroughput with
        | none => simp only [getDDBTableProvisionedCapacityResult, h1, h2]
        | some pt₂ => rw [h1, h2] at hpt; simp at hpt
      | some pt₁ =>
        cases h2 : td₂.provisionedThroughput with
        | none => rw [h1, h2] at hpt; simp at hpt
        | some pt₂ =>
          have hfst : pt₁.1 = pt₂.1 := by
            rw [h1, h2] at hpt
            simpa using hpt
          cases idx with
          | none =>
            rw [capResult_pt_read td₁ t reg pt₁ h1, capResult_pt_read td₂ t reg pt₂ h2, hfst]
          | some i =>
            simp only [getDDBTableProvisionedCapacityResult, h1, h2]
            cases hg1 : td₁.globalSecondaryIndexes with
            | none =>
              cases hg2 : td₂.globalSecondaryIndexes with
              | none => rfl
              | some gs₂ => rw [hg1, hg2] at hg; simp at hg
            | some gs₁ =>
              cases hg2 : td₂.globalSecondaryIndexes with
              | none => rw [hg1, hg2] at hg; simp at hg
              | some gs₂ =>
                have : gs₁.map GSIDesc.readPart = gs₂.map GSIDesc.readPart := by
                  rw [hg1, hg2] at hg
                  simpa using hg
                exact findIndexCapacity_read_congr gs₁ gs₂ i this

/-- Write-kind capacity results on descriptors with equal read views are
equal or both successful. -/
theorem capResult_write_congr (r₁ r₂ : Option TableDesc) (t reg : String)
    (idx : Option String)
    (hd : r₁.map TableDesc.readView = r₂.map TableDesc.readView) :
    getDDBTableProvisionedCapacityResult r₁ t reg ("write") idx
      = getDDBTableProvisionedCapacityResult r₂ t reg ("write") idx
    ∨ ((getDDBTableProvisionedCapacityResult r₁ t reg ("write") idx).isOk = true
       ∧ (getDDBTableProvisionedCapacityResult r₂ t reg ("write") idx).isOk = true) := by
  cases r₁ with
  | none =>
    cases r₂ with
    | none => exact Or.inl rfl
    | some td₂ => simp at hd
  | some td₁ =>
    cases r₂ with
    | none => simp at hd
    | some td₂ =>
      simp only [Option.map_some', Option.some_inj] at hd
      have hpt := congrArg Prod.fst hd
      have hg := congrArg Prod.snd hd
      simp only [TableDesc.readView] at hpt hg
      cases h1 : td₁.provisionedThroughput with
      | none =>
        cases h2 : td₂.provisionedThroughput with
        | none => exact Or.inl (by simp only [getDDBTableProvisionedCapacityResult, h1, h2])
        | some pt₂ => rw [h1, h2] at hpt; simp at hpt
      | some pt₁ =>
        cases h2 : td₂.provisionedThroughput with
        | none => rw [h1, h2] at hpt; simp at hpt
        | some pt₂ =>
          cases idx with
          | none =>
            refine Or.inr ?_
            rw [capResult_pt_write td₁ t reg pt₁ h1, capResult_pt_write td₂ t reg pt₂ h2]
            exact ⟨rfl, rfl⟩
          | some i =>
            simp only [getDDBTableProvisionedCapacityResult, h1, h2]
            cases hg1 : td₁.globalSecondaryIndexes with
            | none =>
              cases hg2 : td₂.globalSecondaryIndexes with
              | none => exact Or.inl rfl
              | some gs₂ => rw [hg1, hg2] at hg; simp at hg
            | some gs₁ =>
              cases hg2 : td₂.globalSecondaryIndexes with
              | none => rw [hg1, hg2] at hg; simp at hg
              | some gs₂ =>
                have : gs₁.map GSIDesc.readPart = gs₂.map GSIDesc.readPart := by
                  rw [hg1, hg2] at hg
                  simpa using hg
                exact findIndexCapacity_write_congr gs₁ gs₂ i this

/-- Sequencing after a successful stage concatenates calls and prints. -/
theorem PyM.bind_ok {α β : Type} (cs : List Call) (ps : List OutLine) (a : α)
    (f : α → PyM β) :
    PyM.bind (cs, ps, Except.ok a) f = (cs ++ (f a).1, ps ++ (f a).2.1, (f a).2.2) := by
  rcases hfa : f a with ⟨cs2, ps2, r⟩
  simp [PyM.bind, hfa]

/-- Sequencing after an exception keeps the failed stage's calls/prints. -/
theorem PyM.bind_error {α β : Type} (cs : List Call) (ps : List OutLine) (e : PyErr)
    (f : α → PyM β) :
    PyM.bind (cs, ps, Except.error e) f = (cs, ps, Except.error e) := rfl

/-- The report stage performs no external calls. -/
theorem reportMaxConsumed_trace (t : String) (rcu : Option Int) (d : List Datapoint) :
    (reportMaxConsumed t rcu d).1 = [] := by
  unfold reportMaxConsumed
  split
  · rfl
  · split <;> rfl

/-- Full evaluation of one per-subject run into its calls, prints and
result, by cases on the two capacity fetches. -/
theorem determineUnused_eval (env : Env) (region t : String) (idx : Option String) :
    determineUnusedDDBCapacity env region t idx =
      match getDDBTableProvisionedCapacityResult (env.describeTable t) t region ("read") idx with
      | Except.error e => ([Call.describeTable t], [], Except.error e)
      | Except.ok rcu =>
        match getDDBTableProvisionedCapacityResult (env.describeTable t) t region ("write") idx with
        | Except.error e => ([Call.describeTable t, Call.describeTable t], [], Except.error e)
        | Except.ok wcu =>
          ([Call.describeTable t, Call.describeTable t,
            Call.getMetricStatistics (consumedCall env t)],
           [OutLine.provisionedRead t idx rcu, OutLine.provisionedWrite t idx wcu]
             ++ (reportMaxConsumed t rcu (env.metrics (consumedCall env t))).2.1,
           (reportMaxConsumed t rcu (env.metrics (consumedCall env t))).2.2) := by
  unfold determineUnusedDDBCapacity getDDBTableProvisionedCapacity getDDBMetricsStatistics
  cases hr : getDDBTableProvisionedCapacityResult (env.describeTable t) t region ("read") idx with
  | error e => rw [PyM.bind_error]
  | ok rcu =>
    rw [PyM.bind_ok]
    cases hw : getDDBTableProvisionedCapacityResult (env.describeTable t) t region ("write") idx with
    | error e =>
      rw [PyM.bind_error]
      rfl
    | ok wcu =>
      rw [PyM.bind_ok]
      simp only [pyPrint, PyM.bind_ok]
      rcases hrep : reportMaxConsumed t rcu (env.metrics (consumedCall env t))
        with ⟨rc, rp, rr⟩
      have hrc : rc = [] := by
        have := reportMaxConsumed_trace t rcu (env.metrics (consumedCall env t))
        rw [hrep] at this
        exact this
      subst hrc
      simp only [consumedCall] at hrep
      simp [consumedCall, hrep]

/-- Claim C10 (confirmed): two per-subject runs that differ only in
write-capacity data — same metric series, same clock readings, and table
descriptors agreeing on everything except write units — produce the same
peak-utilization report lines and the same final result; the reported peak
depends only on the read capacity and the consumed-read samples. -/
theorem C10_theorem (e₁ e₂ : Env) (region t : String) (idx : Option String)
    (hm : e₁.metrics = e₂.metrics) (h0 : e₁.now0 = e₂.now0) (h1 : e₁.now1 = e₂.now1)
    (hd : ∀ s, (e₁.describeTable s).map TableDesc.readView
               = (e₂.describeTable s).map TableDesc.readView) :
    (printsOf (determineUnusedDDBCapacity e₁ region t idx)).filter OutLine.isMaxConsumed
      = (printsOf (determineUnusedDDBCapacity e₂ region t idx)).filter OutLine.isMaxConsumed
  ∧ resultOf (determineUnusedDDBCapacity e₁ region t idx)
      = resultOf (determineUnusedDDBCapacity e₂ region t idx) := by
  have hcc : consumedCall e₁ t = consumedCall e₂ t := by
    simp [consumedCall, h0, h1]
  have hread := capResult_read_congr (e₁.describeTable t) (e₂.describeTable t)
    t region idx (hd t)
  have hwrite := capResult_write_congr (e₁.describeTable t) (e₂.describeTable t)
    t region idx (hd t)
  rw [determineUnused_eval, determineUnused_eval, hread, hcc, hm]
  cases hr : getDDBTableProvisionedCapacityResult (e₂.describeTable t) t region ("read") idx with
  | error e => exact ⟨rfl, rfl⟩
  | ok rcu =>
    rcases hwrite with heq | ⟨hok1, hok2⟩
    · rw [heq]
      cases hw : getDDBTableProvisionedCapacityResult (e₂.describeTable t) t region ("write") idx with
      | error e => exact ⟨rfl, rfl⟩
      | ok wcu => exact ⟨rfl, rfl⟩
    · cases hw1 : getDDBTableProvisionedCapacityResult (e₁.describeTable t) t region ("write") idx with
      | error e => rw [hw1] at hok1; simp [Except.isOk, Except.toBool] at hok1
      | ok w₁ =>
        cases hw2 : getDDBTableProvisionedCapacityResult (e₂.describeTable t) t region ("write") idx with
        | error e => rw [hw2] at hok2; simp [Except.isOk, Except.toBool] at hok2
        | ok w₂ =>
          constructor
          · simp only [printsOf, List.filter_append, List.filter_cons, OutLine.isMaxConsumed,
              Bool.false_eq_true, if_neg, reduceIte]
          · rfl

/-- Shared metric series for the two C10-witness runs: one 40-unit sample. -/
def mC10 : MetricsCall → List Datapoint := fun _ => [{ timestamp := ("t"), sum := 40 }]

/-- Environment whose one table has write capacity 10. -/
def envC10a : Env :=
  { listTablesResp := some [("A")],
    describeTable := fun _ =>
      some { provisionedThroughput := some (100, 10), globalSecondaryIndexes := Option.none },
    metrics := mC10, now0 := 0, now1 := 0 }

/-- The same environment except write capacity 999. -/
def envC10b : Env :=
  { listTablesResp := some [("A")],
    describeTable := fun _ =>
      some { provisionedThroughput := some (100, 999), globalSecondaryIndexes := Option.none },
    metrics := mC10, now0 := 0, now1 := 0 }

/-- Claim C10, witness: the two runs on table A differing only in write
capacity (10 versus 999) report identical peak lines and results. -/
theorem C10_witness :
    (printsOf (determineUnusedDDBCapacity envC10a ("us-east-1") ("A") Option.none)).filter
        OutLine.isMaxConsumed
      = (printsOf (determineUnusedDDBCapacity envC10b ("us-east-1") ("A") Option.none)).filter
        OutLine.isMaxConsumed
  ∧ resultOf (determineUnusedDDBCapacity envC10a ("us-east-1") ("A") Option.none)
      = resultOf (determineUnusedDDBCapacity envC10b ("us-east-1") ("A") Option.none) :=
  C10_theorem envC10a envC10b ("us-east-1") ("A") Option.none rfl rfl rfl (fun s => rfl)
